import Mathlib

/-!
Shallow embedding of the file-upload service (FastAPI backend with a MongoDB
metadata store and a pluggable storage backend), translated from the Python
sources under `Backend/`:

* `storage.py`   — `LocalStorageClient` (key-to-bytes map model), `get_storage_client`
* `database.py`  — `MongoDBClient` operations with their tenacity retry decorator
* `routers/files.py` — `upload_file`, `download_file`, `health_check` handlers
* `config.py`    — `ALLOWED_EXTENSIONS`, health status constants

Bytes are modelled as `List Nat`; exceptions as explicit sum types; the
filesystem / blob store as an association list from object name to content.
-/

set_option autoImplicit false
set_option linter.unusedVariables false

namespace FileService

/-! ## Configuration (config.py) -/

/-- `CONFIG.ALLOWED_EXTENSIONS = {".txt", ".jpg", ".png", ".json"}`. -/
def ALLOWED_EXTENSIONS : List String := [".txt", ".jpg", ".png", ".json"]

/-- `CONFIG.HEALTHY = "healthy"`. -/
def HEALTHY : String := "healthy"

/-- `CONFIG.UNHEALTHY = "unhealthy"`. -/
def UNHEALTHY : String := "unhealthy"

/-- Python `str.lower()` (ASCII case fold, which covers every string the
service compares). -/
def pyLower (s : String) : String := ⟨s.data.map Char.toLower⟩

/-- Python `str.endswith(suffix)`: suffix match on the character sequence. -/
def pyEndsWith (s suff : String) : Bool := suff.data.isSuffixOf s.data

/-- The extension guard of the upload handler:
`any(file.filename.lower().endswith(ext) for ext in CONFIG.ALLOWED_EXTENSIONS)`. -/
def hasAllowedExtension (filename : String) : Bool :=
  ALLOWED_EXTENSIONS.any (fun ext => pyEndsWith (pyLower filename) ext)

/-! ## Local storage backend (storage.py, LocalStorageClient)

The local filesystem under `CONFIG.LOCAL_STORAGE_PATH` is modelled as a
key-to-bytes association list; a write prepends, a lookup takes the first
match, which gives the overwrite semantics of `open(path, 'wb')`. -/

abbrev LocalStore := List (String × List Nat)

/-- Storage-level failure: `get_file` raises `ValueError("File not found")`
for an absent key, and wraps `OSError` for real I/O faults. -/
inductive StorageErr where
  | notFound
  | ioError (msg : String)
deriving DecidableEq, Repr

/-- First-match lookup of a blob by object name. -/
def lookupBlob (σ : LocalStore) (k : String) : Option (List Nat) :=
  (σ.find? (fun p => p.1 == k)).map Prod.snd

/-- `LocalStorageClient.upload_file(object_name, file_content, content_type)`:
writes `file_content` at `object_name` (the `content_type` argument is
accepted and ignored, as in the source). -/
def localUploadFile (σ : LocalStore) (object_name : String) (file_content : List Nat)
    (content_type : String) : LocalStore :=
  (object_name, file_content) :: σ

/-- `LocalStorageClient.get_file(object_name)`: returns the stored bytes, or
raises `ValueError("File not found")` when `os.path.exists` is false. -/
def localGetFile (σ : LocalStore) (object_name : String) : Except StorageErr (List Nat) :=
  match lookupBlob σ object_name with
  | some c => .ok c
  | none => .error .notFound

/-- `LocalStorageClient.file_exists(object_name)`: a direct path-existence
check, `os.path.exists(file_path)`. -/
def localFileExists (σ : LocalStore) (object_name : String) : Bool :=
  (lookupBlob σ object_name).isSome

/-- The store of a freshly initialized `LocalStorageClient` (empty directory). -/
def emptyStore : LocalStore := []

/-- A history of `upload_file` calls `(object_name, content, content_type)`
applied in order to the empty store. -/
def applyUploads (ops : List (String × List Nat × String)) : LocalStore :=
  ops.foldl (fun σ p => localUploadFile σ p.1 p.2.1 p.2.2) emptyStore

theorem lookupBlob_cons (σ : LocalStore) (k k' : String) (c : List Nat) :
    lookupBlob ((k, c) :: σ) k' = if k = k' then some c else lookupBlob σ k' := by
  by_cases h : k = k'
  · simp [lookupBlob, List.find?, h]
  · have hb : (k == k') = false := beq_eq_false_iff_ne.mpr h
    simp [lookupBlob, List.find?, hb, h]

theorem lookupBlob_foldl_none (ops : List (String × List Nat × String)) (k : String)
    (σ : LocalStore) (hops : ∀ p ∈ ops, p.1 ≠ k) (hσ : lookupBlob σ k = none) :
    lookupBlob (ops.foldl (fun σ p => localUploadFile σ p.1 p.2.1 p.2.2) σ) k = none := by
  induction ops generalizing σ with
  | nil => simpa using hσ
  | cons p ops ih =>
    simp only [List.foldl_cons]
    refine ih _ (fun q hq => hops q (List.mem_cons_of_mem p hq)) ?_
    have hne : p.1 ≠ k := hops p (List.mem_cons_self p ops)
    simp [localUploadFile, lookupBlob_cons, hne, hσ]

/-- C1: upload followed by read on the local backend returns exactly the
uploaded bytes. -/
theorem localGetFile_localUploadFile (σ : LocalStore) (k : String) (c : List Nat)
    (ct : String) :
    localGetFile (localUploadFile σ k c ct) k = .ok c := by
  simp [localGetFile, localUploadFile, lookupBlob_cons]

/-- C5: a key that no upload in the history ever used does not exist and
reading it fails with not-found. -/
theorem never_uploaded_key_absent (ops : List (String × List Nat × String)) (k : String)
    (h : ∀ p ∈ ops, p.1 ≠ k) :
    localFileExists (applyUploads ops) k = false ∧
    localGetFile (applyUploads ops) k = .error .notFound := by
  have hnone : lookupBlob (applyUploads ops) k = none := by
    refine lookupBlob_foldl_none ops k emptyStore h ?_
    simp [lookupBlob, emptyStore]
  exact ⟨by simp [localFileExists, hnone], by simp [localGetFile, hnone]⟩

/-- Witness for C5 at a concrete one-upload history and a fresh key. -/
theorem never_uploaded_key_absent_witness :
    localFileExists (applyUploads [("u1-a.txt", [104, 105], "text/plain")]) "other-key" = false ∧
    localGetFile (applyUploads [("u1-a.txt", [104, 105], "text/plain")]) "other-key" =
      .error .notFound :=
  never_uploaded_key_absent [("u1-a.txt", [104, 105], "text/plain")] "other-key" (by decide)

/-! ## Exceptions crossing component boundaries -/

/-- The Python exceptions the handlers distinguish: `ValueError` (the
generic `StorageError`/`DatabaseError` wrapper raised at each backend
boundary) and pymongo's `ConnectionFailure`, which the database wrappers do
not catch and which therefore propagates raw. -/
inductive PyExc where
  | valueError (msg : String)
  | connectionFailure (msg : String)
deriving DecidableEq, Repr

/-! ## Upload orchestration (routers/files.py, upload_file)

State threading: `blobs` is the storage backend's content, `metas` the
`files` collection. The handler's collaborators are oracles:
`storageResult = some m` means `storage_client.upload_file` raises
`ValueError m` (a `StorageError`); `insertResult` is what
`mongo_client.insert_file` returns or raises. The list of `Event`s records,
in order, each invocation of a storage upload or a metadata insert, so
"never called" is `[]`-membership. -/

/-- One document of the `files` collection, as built by the handler. -/
structure FileMeta where
  filename : String
  size : Nat
  content_type : String
  upload_date : Nat
  object_name : String
deriving DecidableEq, Repr

/-- Blob store plus metadata collection. -/
structure SysState where
  blobs : LocalStore
  metas : List FileMeta
deriving DecidableEq, Repr

/-- Outcome of a handler: a response body or a raised `HTTPException`. -/
inductive UploadOutcome where
  | ok (file_id : String) (filename : String) (size : Nat)
  | httpError (status : Nat) (detail : String)
deriving DecidableEq, Repr

/-- Trace of backend invocations made by a handler run. -/
inductive Event where
  | storageUploadEv (key : String) (content : List Nat) (contentType : String)
  | mongoInsertEv (m : FileMeta)
deriving DecidableEq, Repr

/-- The validation prefix of the handler: a filename is accepted when it is
present, non-empty (Python truthiness of `file.filename`) and carries an
allowed extension. -/
def validFilename (filename? : Option String) : Bool :=
  match filename? with
  | none => false
  | some f => (f != "") && hasAllowedExtension f

/-- `upload_file` handler of routers/files.py. Faithful points: the two
filename guards raise HTTP 400 outside the `try` block; the empty-content
`HTTPException(400)` is raised inside the `try` block, where the trailing
`except Exception` catches it and re-raises HTTP 500 "Internal server
error"; a `ValueError` from storage or insert becomes HTTP 500
"File upload failed: ..."; a raw `ConnectionFailure` from insert falls to
the catch-all HTTP 500 "Internal server error". `object_name` is
`f"{uuid.uuid4()}{file.filename}"`. -/
def upload_file (filename? : Option String) (content : List Nat) (contentType : String)
    (uuidToken : String) (now : Nat) (storageResult : Option String)
    (insertResult : Except PyExc String) (st : SysState) :
    UploadOutcome × SysState × List Event :=
  match filename? with
  | none => (.httpError 400 "No file provided", st, [])
  | some filename =>
    if filename = "" then
      (.httpError 400 "No file provided", st, [])
    else if hasAllowedExtension filename then
      let object_name := uuidToken ++ filename
      if content.length = 0 then
        (.httpError 500 "Internal server error", st, [])
      else
        let ev1 := Event.storageUploadEv object_name content contentType
        match storageResult with
        | some m => (.httpError 500 ("File upload failed: " ++ m), st, [ev1])
        | none =>
          let st1 : SysState :=
            { st with blobs := localUploadFile st.blobs object_name content contentType }
          let meta : FileMeta := ⟨filename, content.length, contentType, now, object_name⟩
          let ev2 := Event.mongoInsertEv meta
          match insertResult with
          | .error (.valueError m) =>
              (.httpError 500 ("File upload failed: " ++ m), st1, [ev1, ev2])
          | .error (.connectionFailure _) =>
              (.httpError 500 "Internal server error", st1, [ev1, ev2])
          | .ok fid =>
              (.ok fid filename content.length,
                { st1 with metas := st1.metas ++ [meta] }, [ev1, ev2])
    else
      (.httpError 400 "Unsupported file type. Allowed: .txt, .jpg, .png, .json", st, [])

/-- C2: a missing, empty or wrongly-extended filename is rejected with HTTP
400, the state is untouched and no backend call is made. -/
theorem upload_rejected_invalid_filename (filename? : Option String) (content : List Nat)
    (ct u : String) (now : Nat) (sr : Option String) (ir : Except PyExc String)
    (st : SysState) (h : validFilename filename? = false) :
    ∃ d, upload_file filename? content ct u now sr ir st = (.httpError 400 d, st, []) := by
  cases filename? with
  | none => exact ⟨"No file provided", rfl⟩
  | some f =>
    by_cases hf : f = ""
    · subst hf
      exact ⟨"No file provided", by simp [upload_file]⟩
    · have hext : hasAllowedExtension f = false := by
        simpa [validFilename, hf] using h
      exact ⟨"Unsupported file type. Allowed: .txt, .jpg, .png, .json",
        by simp [upload_file, hf, hext]⟩

/-- Witness for C2: uploading `image.gif` (disallowed extension) is a 400
with no state change and no backend calls. -/
theorem upload_rejected_invalid_filename_witness :
    ∃ d, upload_file (some "image.gif") [104] "image/gif" "u-" 0 none (.ok "id")
        ⟨[], []⟩ = (.httpError 400 d, ⟨[], []⟩, []) :=
  upload_rejected_invalid_filename (some "image.gif") [104] "image/gif" "u-" 0 none
    (.ok "id") ⟨[], []⟩ (by decide)

/-- C3 (code behavior at the failing input): a zero-length upload with a
valid filename is rejected with no state change and no backend call, but the
handler's own `HTTPException(400, "File is empty")` is swallowed by its
catch-all `except Exception` and surfaces as HTTP 500 "Internal server
error", not as the 400 the code and spec intend. -/
theorem upload_empty_file_surfaces_500 :
    upload_file (some "a.txt") [] "text/plain" "3f9d-" 0 none (.ok "id1") ⟨[], []⟩ =
      (.httpError 500 "Internal server error", ⟨[], []⟩, []) := by decide

/-- C4: when the storage upload raises a `StorageError`, the flow aborts
with a failure report, the state is unchanged and the only backend call is
the storage upload; moreover, in every run of the handler a metadata insert
happens only when storage succeeded, and then strictly after the storage
upload call. -/
theorem storage_failure_blocks_metadata_insert (f : String) (content : List Nat)
    (ct u : String) (now : Nat) (m : String) (ir : Except PyExc String) (st : SysState)
    (h : validFilename (some f) = true) (hc : content ≠ []) :
    upload_file (some f) content ct u now (some m) ir st =
      (.httpError 500 ("File upload failed: " ++ m), st,
        [.storageUploadEv (u ++ f) content ct]) ∧
    ∀ (sr : Option String) (ir2 : Except PyExc String) (fm : FileMeta),
      Event.mongoInsertEv fm ∈ (upload_file (some f) content ct u now sr ir2 st).2.2 →
      sr = none ∧
      (upload_file (some f) content ct u now sr ir2 st).2.2 =
        [Event.storageUploadEv (u ++ f) content ct, Event.mongoInsertEv fm] := by
  have hf : ¬ f = "" := by
    intro hf
    subst hf
    simp [validFilename] at h
  have hext : hasAllowedExtension f = true := by
    simpa [validFilename, hf] using h
  have hlen : ¬ content.length = 0 := by
    simpa [List.length_eq_zero] using hc
  refine ⟨by simp [upload_file, hf, hext, hlen], ?_⟩
  intro sr ir2 fm hmem
  cases sr with
  | some m' => simp [upload_file, hf, hext, hlen] at hmem
  | none =>
    refine ⟨rfl, ?_⟩
    cases ir2 with
    | ok fid =>
      simp only [upload_file, hf, hext, hlen, if_false, if_true, ite_false, ite_true] at hmem ⊢
      simp_all
    | error e =>
      cases e with
      | valueError m2 =>
        simp only [upload_file, hf, hext, hlen] at hmem ⊢
        simp_all
      | connectionFailure m2 =>
        simp only [upload_file, hf, hext, hlen] at hmem ⊢
        simp_all

/-- Witness for C4 at a concrete failing storage backend. -/
theorem storage_failure_blocks_metadata_insert_witness :
    upload_file (some "notes.txt") [104] "text/plain" "u-" 7 (some "disk full")
        (.ok "id") ⟨[], []⟩ =
      (.httpError 500 ("File upload failed: " ++ "disk full"), ⟨[], []⟩,
        [.storageUploadEv ("u-" ++ "notes.txt") [104] "text/plain"]) :=
  (storage_failure_blocks_metadata_insert "notes.txt" [104] "text/plain" "u-" 7
    "disk full" (.ok "id") ⟨[], []⟩ (by decide) (by decide)).1

/-- C10: the filename `".txt"` (an allowed extension with an empty base
name) passes validation, and the upload proceeds through the blob write and
the metadata insert like any accepted upload. -/
theorem bare_extension_filename_accepted (content : List Nat) (ct u fid : String)
    (now : Nat) (st : SysState) (hc : content ≠ []) :
    hasAllowedExtension ".txt" = true ∧
    upload_file (some ".txt") content ct u now none (.ok fid) st =
      (.ok fid ".txt" content.length,
        ⟨localUploadFile st.blobs (u ++ ".txt") content ct,
          st.metas ++ [⟨".txt", content.length, ct, now, u ++ ".txt"⟩]⟩,
        [.storageUploadEv (u ++ ".txt") content ct,
          .mongoInsertEv ⟨".txt", content.length, ct, now, u ++ ".txt"⟩]) := by
  have hlen : ¬ content.length = 0 := by
    simpa [List.length_eq_zero] using hc
  refine ⟨by decide, ?_⟩
  have hne : ¬ (".txt" : String) = "" := by decide
  have hext : hasAllowedExtension ".txt" = true := by decide
  simp [upload_file, hne, hext, hlen]

/-- Witness for C10 at one-byte content. -/
theorem bare_extension_filename_accepted_witness :
    hasAllowedExtension ".txt" = true ∧
    upload_file (some ".txt") [104] "text/plain" "u-" 3 none (.ok "id9") ⟨[], []⟩ =
      (.ok "id9" ".txt" 1,
        ⟨localUploadFile [] ("u-" ++ ".txt") [104] "text/plain",
          [] ++ [⟨".txt", 1, "text/plain", 3, "u-" ++ ".txt"⟩]⟩,
        [.storageUploadEv ("u-" ++ ".txt") [104] "text/plain",
          .mongoInsertEv ⟨".txt", 1, "text/plain", 3, "u-" ++ ".txt"⟩]) := by
  have h := bare_extension_filename_accepted [104] "text/plain" "u-" "id9" 3 ⟨[], []⟩
    (by decide)
  simpa using h

/-! ## Download orchestration (routers/files.py, download_file) -/

/-- Hex-digit test used by bson's `ObjectId.is_valid` on strings. -/
def isHexChar (c : Char) : Bool :=
  (48 ≤ c.toNat && c.toNat ≤ 57) || (97 ≤ c.toNat && c.toNat ≤ 102) ||
    (65 ≤ c.toNat && c.toNat ≤ 70)

/-- `ObjectId.is_valid(oid)` for a string argument: 24 hexadecimal
characters. -/
def objectId_is_valid (s : String) : Bool :=
  (s.length == 24) && s.data.all isHexChar

/-- The `files` collection keyed by document id. -/
abbrev MetaDb := List (String × FileMeta)

/-- `MongoDBClient.get_file_by_id`: `find_one({"_id": ObjectId(file_id)})`. -/
def findMeta (db : MetaDb) (fid : String) : Option FileMeta :=
  (db.find? (fun p => p.1 == fid)).map Prod.snd

/-- Outcome of the download handler: a streamed blob tagged with media type
and filename, or a raised `HTTPException`. -/
inductive DownloadOutcome where
  | stream (content : List Nat) (mediaType : String) (filename : String)
  | httpError (status : Nat) (detail : String)
deriving DecidableEq, Repr

/-- `download_file` handler of routers/files.py: rejects a malformed id with
`HTTPException(400, "Invalid file ID format")` before the `try` block, then
looks up metadata (404 on a missing record), checks storage existence (404
when the blob is gone) and streams the blob with the recorded content type
and filename. -/
def download_file (file_id : String) (db : MetaDb) (σ : LocalStore) : DownloadOutcome :=
  if objectId_is_valid file_id then
    match findMeta db file_id with
    | none => .httpError 404 "File not found in database"
    | some meta =>
      if localFileExists σ meta.object_name then
        match localGetFile σ meta.object_name with
        | .ok c => .stream c meta.content_type meta.filename
        | .error _ => .httpError 500 "File download failed"
      else .httpError 404 "File not found in storage"
  else .httpError 400 "Invalid file ID format"

/-- The HTTP status a download outcome carries, if it is an error. -/
def outcomeStatus : DownloadOutcome → Option Nat
  | .stream _ _ _ => none
  | .httpError s _ => some s

/-- C6 counterexample: a syntactically malformed id is answered with HTTP
400 "Invalid file ID format", not with the 404 the claim states. -/
theorem malformed_id_yields_400_not_404 :
    download_file "not-an-objectid" [] [] = .httpError 400 "Invalid file ID format" ∧
    outcomeStatus (download_file "not-an-objectid" [] []) ≠ some 404 := by decide

/-- C6 amended: a syntactically malformed id is rejected with the client
error HTTP 400 "Invalid file ID format" — deterministically, so never a
server error and never a crash. -/
theorem malformed_id_rejected_as_client_error (fid : String) (db : MetaDb)
    (σ : LocalStore) (h : objectId_is_valid fid = false) :
    download_file fid db σ = .httpError 400 "Invalid file ID format" := by
  simp [download_file, h]

/-- Witness for the amended C6 at a concrete malformed id. -/
theorem malformed_id_rejected_as_client_error_witness :
    download_file "xyz" [] [] = .httpError 400 "Invalid file ID format" :=
  malformed_id_rejected_as_client_error "xyz" [] [] (by decide)

/-! ## Metadata store retry policy (database.py)

tenacity `@retry(stop=stop_after_attempt(3), wait=wait_fixed(1),
reraise=True)` decorates `insert_file`, `get_files` and `get_file_by_id`
identically. With no `retry=` argument, tenacity retries on ANY exception;
`reraise=True` re-raises the last attempt's exception after the third
attempt. The decorated body is modelled per attempt by an oracle. -/

/-- A pymongo failure of one attempt: connectivity-class
(`ConnectionFailure`) or non-transient (`OperationFailure`, e.g. a
malformed query). -/
inductive DbFailure where
  | connectionFailure (msg : String)
  | operationFailure (msg : String)
deriving DecidableEq, Repr

/-- Whether an `Except` is an error. -/
def isErr {ε α : Type} : Except ε α → Bool
  | .error _ => true
  | .ok _ => false

/-- One attempt of `MongoDBClient.insert_file`: `OperationFailure` is caught
and re-raised as `ValueError("Database insert failed: ...")`; a
`ConnectionFailure` is not caught and propagates raw. -/
def insert_file_attempt (oracle : Nat → Except DbFailure String) (i : Nat) :
    Except PyExc String :=
  match oracle i with
  | .ok v => .ok v
  | .error (.operationFailure m) =>
      .error (.valueError ("Database insert failed: " ++ m))
  | .error (.connectionFailure m) => .error (.connectionFailure m)

/-- The tenacity loop: `fuel` remaining retries, `i` the index of the
current attempt. Returns the final result, the number of attempts made, and
the list of inter-attempt waits (each `wait_fixed(1)`). Any exception
triggers a retry while fuel remains. -/
def retryLoop {α : Type} (f : Nat → Except PyExc α) :
    Nat → Nat → Except PyExc α × Nat × List Nat
  | 0, i =>
    match f i with
    | .ok v => (.ok v, i + 1, [])
    | .error e => (.error e, i + 1, [])
  | fuel' + 1, i =>
    match f i with
    | .ok v => (.ok v, i + 1, [])
    | .error _ =>
      let r := retryLoop f fuel' (i + 1)
      (r.1, r.2.1, 1 :: r.2.2)

/-- `stop_after_attempt(3)`: a first attempt plus at most two retries. -/
def retryCall {α : Type} (f : Nat → Except PyExc α) : Except PyExc α × Nat × List Nat :=
  retryLoop f 2 0

/-- `MongoDBClient.insert_file` as decorated (the `get_files` and
`get_file_by_id` decorators are identical). -/
def insert_file (oracle : Nat → Except DbFailure String) :
    Except PyExc String × Nat × List Nat :=
  retryCall (insert_file_attempt oracle)

theorem retryLoop_attempts_le {α : Type} (f : Nat → Except PyExc α) (fuel i : Nat) :
    (retryLoop f fuel i).2.1 ≤ i + fuel + 1 := by
  induction fuel generalizing i with
  | zero => cases hf : f i <;> simp [retryLoop, hf]
  | succ n ih =>
    cases hf : f i with
    | ok v => simp only [retryLoop, hf]; omega
    | error e =>
      have h := ih (i + 1)
      simp only [retryLoop, hf]
      omega

/-- C7 counterexample: a non-transient `OperationFailure` (which the claim
says is not retried, so a single attempt) is in fact attempted 3 times, and
what is surfaced is the wrapped `ValueError` of the last attempt. -/
theorem nontransient_failure_is_retried :
    (insert_file (fun _ => .error (.operationFailure "bad query"))).2.1 = 3 ∧
    (insert_file (fun _ => .error (.operationFailure "bad query"))).2.1 ≠ 1 ∧
    (insert_file (fun _ => .error (.operationFailure "bad query"))).1 =
      .error (.valueError ("Database insert failed: " ++ "bad query")) :=
  ⟨rfl, by decide, rfl⟩

/-- C7 amended: each operation is attempted at most 3 times with a fixed
1-unit wait between attempts, ANY failure (transient or not) triggers the
retry, and when the first two attempts fail the call surfaces the last
attempt's outcome — an `OperationFailure` wrapped as the
`DatabaseError`-style `ValueError`, a `ConnectionFailure` raw. -/
theorem mongo_retry_policy (oracle : Nat → Except DbFailure String)
    (h0 : isErr (insert_file_attempt oracle 0) = true)
    (h1 : isErr (insert_file_attempt oracle 1) = true) :
    (insert_file oracle).2.1 = 3 ∧
    (insert_file oracle).2.2 = [1, 1] ∧
    (insert_file oracle).1 = insert_file_attempt oracle 2 ∧
    ∀ g : Nat → Except DbFailure String, (insert_file g).2.1 ≤ 3 := by
  have hbound : ∀ g : Nat → Except DbFailure String, (insert_file g).2.1 ≤ 3 := by
    intro g
    have h := retryLoop_attempts_le (insert_file_attempt g) 2 0
    simpa [insert_file, retryCall] using h
  cases hA0 : insert_file_attempt oracle 0 with
  | ok v => rw [hA0] at h0; simp [isErr] at h0
  | error e0 =>
    cases hA1 : insert_file_attempt oracle 1 with
    | ok v => rw [hA1] at h1; simp [isErr] at h1
    | error e1 =>
      cases hA2 : insert_file_attempt oracle 2 with
      | ok v =>
        exact ⟨by simp [insert_file, retryCall, retryLoop, hA0, hA1, hA2],
          by simp [insert_file, retryCall, retryLoop, hA0, hA1, hA2],
          by simp [insert_file, retryCall, retryLoop, hA0, hA1, hA2], hbound⟩
      | error e2 =>
        exact ⟨by simp [insert_file, retryCall, retryLoop, hA0, hA1, hA2],
          by simp [insert_file, retryCall, retryLoop, hA0, hA1, hA2],
          by simp [insert_file, retryCall, retryLoop, hA0, hA1, hA2], hbound⟩

/-- Witness for the amended C7 at an always-disconnected store: 3 attempts,
two 1-unit waits, and the raw `ConnectionFailure` surfaces. -/
theorem mongo_retry_policy_witness :
    (insert_file (fun _ => .error (.connectionFailure "conn down"))).2.1 = 3 ∧
    (insert_file (fun _ => .error (.connectionFailure "conn down"))).2.2 = [1, 1] ∧
    (insert_file (fun _ => .error (.connectionFailure "conn down"))).1 =
      .error (.connectionFailure "conn down") := by
  have h := mongo_retry_policy (fun _ => .error (.connectionFailure "conn down"))
    (by decide) (by decide)
  exact ⟨h.1, h.2.1, h.2.2.1.trans rfl⟩

/-! ## Health endpoint (routers/files.py, health_check) -/

/-- A component's health report, `{"status": ..., "error": ...}`. -/
structure HealthComponent where
  status : String
  error : Option String := none
deriving DecidableEq, Repr

/-- `MongoDBClient.check_health`: issues `ping`; a `ConnectionFailure m`
(modelled by `pingFailure = some m`) is reported as unhealthy with the
message, success as healthy. -/
def mongo_check_health (pingFailure : Option String) : HealthComponent :=
  match pingFailure with
  | none => { status := HEALTHY }
  | some m => { status := UNHEALTHY, error := some m }

/-- `LocalStorageClient.check_health`: healthy when the storage path exists
and is writable, otherwise unhealthy with "Storage path inaccessible". -/
def local_check_health (pathExists writable : Bool) : HealthComponent :=
  if pathExists && writable then { status := HEALTHY }
  else { status := UNHEALTHY, error := some "Storage path inaccessible" }

/-- The `/health` response. -/
structure HealthResponse where
  status : String
  components : List (String × HealthComponent)
deriving DecidableEq, Repr

/-- `health_check` handler: probes both components and combines; overall
status is healthy only if both components are healthy; both component
reports are attached in every case. -/
def health_check (mongoStatus storageStatus : HealthComponent) : HealthResponse :=
  { status :=
      if mongoStatus.status == HEALTHY && storageStatus.status == HEALTHY then HEALTHY
      else UNHEALTHY
    components := [("mongodb", mongoStatus), ("storage", storageStatus)] }

/-- C8: for probes of both components, the overall status is healthy iff
both component probes report healthy, and the response always carries both
component reports. -/
theorem health_overall_iff (pingFailure : Option String) (pathExists writable : Bool) :
    ((health_check (mongo_check_health pingFailure)
        (local_check_health pathExists writable)).status = HEALTHY ↔
      ((mongo_check_health pingFailure).status = HEALTHY ∧
        (local_check_health pathExists writable).status = HEALTHY)) ∧
    (health_check (mongo_check_health pingFailure)
        (local_check_health pathExists writable)).components =
      [("mongodb", mongo_check_health pingFailure),
        ("storage", local_check_health pathExists writable)] := by
  cases pingFailure <;> cases pathExists <;> cases writable <;>
    simp [health_check, mongo_check_health, local_check_health, HEALTHY, UNHEALTHY]

/-! ## Storage backend factory (storage.py, get_storage_client) -/

/-- Which client class the factory instantiates. -/
inductive StorageBackendKind where
  | minioClient
  | localClient
deriving DecidableEq, Repr

/-- `get_storage_client(backend)`: dispatches on `backend.lower()` and
raises `ValueError(f"Unknown storage backend: {backend}")` otherwise. -/
def get_storage_client (backend : String) : Except String StorageBackendKind :=
  if pyLower backend == "minio" then .ok .minioClient
  else if pyLower backend == "local" then .ok .localClient
  else .error ("Unknown storage backend: " ++ backend)

/-- C9: the factory is case-insensitive — any string lowercasing to "minio"
selects the networked client, any lowercasing to "local" the local client,
and anything else raises the configuration error. -/
theorem get_storage_client_case_insensitive (s : String) :
    (pyLower s = "minio" → get_storage_client s = .ok .minioClient) ∧
    (pyLower s = "local" → get_storage_client s = .ok .localClient) ∧
    (pyLower s ≠ "minio" → pyLower s ≠ "local" →
      get_storage_client s = .error ("Unknown storage backend: " ++ s)) := by
  refine ⟨fun h => ?_, fun h => ?_, fun h1 h2 => ?_⟩
  · have hb : (pyLower s == "minio") = true := by rw [h]; decide
    simp [get_storage_client, hb]
  · have hb1 : (pyLower s == "minio") = false := by rw [h]; decide
    have hb2 : (pyLower s == "local") = true := by rw [h]; decide
    simp [get_storage_client, hb1, hb2]
  · have hb1 : (pyLower s == "minio") = false := beq_eq_false_iff_ne.mpr h1
    have hb2 : (pyLower s == "local") = false := beq_eq_false_iff_ne.mpr h2
    simp [get_storage_client, hb1, hb2]

/-- Witness for C9 at mixed-case and unknown selectors. -/
theorem get_storage_client_case_insensitive_witness :
    get_storage_client "MinIO" = .ok .minioClient ∧
    get_storage_client "LOCAL" = .ok .localClient ∧
    get_storage_client "s3" = .error ("Unknown storage backend: " ++ "s3") :=
  ⟨(get_storage_client_case_insensitive "MinIO").1 (by decide),
    (get_storage_client_case_insensitive "LOCAL").2.1 (by decide),
    (get_storage_client_case_insensitive "s3").2.2 (by decide) (by decide)⟩

end FileService
